import Mathlib

/-!
Shallow embedding of the blackboard application (`src/main.rs`).

The canvas state (strokes, placed texts, interaction-mode flags) and the
recording-pipeline controller state are embedded as Lean structures; the
per-event UI handlers (`ui_toolbar` button clicks and the `ui_central_panel`
click/drag blocks) become pure step functions on that state.  The GStreamer
boundary (`gst::init`, `gst::parse_launch`, `set_state`) is modelled as an
explicit external world carrying a store of created pipelines and oracles
saying which external calls succeed.
-/

namespace Blackboard

/-- A 2D point, mirroring `egui::Pos2`.  Coordinates are embedded as ℚ
(the source uses `f32`; the claims are about exact Euclidean geometry). -/
structure Pos2 where
  x : ℚ
  y : ℚ
deriving DecidableEq, Repr

/-- Mirrors `enum TextOrientation { Horizontal, Vertical }`. -/
inductive TextOrientation where
  | Horizontal
  | Vertical
deriving DecidableEq, Repr

/-- One element of `placed_texts: Vec<(egui::Pos2, String, f32, TextOrientation, String)>`:
anchor position, text, font size, orientation, font family name. -/
structure PlacedText where
  pos : Pos2
  text : String
  size : ℚ
  orientation : TextOrientation
  font : String
deriving DecidableEq, Repr

/-- The GStreamer element states the source uses (`gst::State::Playing`,
`gst::State::Null`). -/
inductive GstState where
  | Null
  | Playing
deriving DecidableEq, Repr

/-- The fields of `struct BlackboardApp` that the claims are about.  The
pipeline handle `gst_pipeline: Option<gst::Pipeline>` is embedded as an
optional index into the external world's pipeline store. -/
structure AppState where
  drawings : List (List Pos2)
  current_line : List Pos2
  recording_rtmp : Bool
  recording_file : Bool
  rtmp_url : String
  output_file_path : String
  text_input_mode : Bool
  text_input : String
  font_size : ℚ
  gst_pipeline : Option Nat
  text_orientation : TextOrientation
  eraser_mode : Bool
  placed_texts : List PlacedText
  selected_font : Option String
deriving DecidableEq, Repr

/-- The external GStreamer world: the store of pipelines created so far
(index = creation order, value = current element state) together with
oracles deciding which external calls succeed: `initOk` for `gst::init()`,
`parseOk` for `gst::parse_launch` (including the `dynamic_cast` to
`Pipeline`), and `setStateOk` for `set_state` on a given pipeline. -/
structure GstWorld where
  pipelines : List GstState
  initOk : Bool
  parseOk : String → Bool
  setStateOk : Nat → GstState → Bool

/-- The state `BlackboardApp::new` builds (fields relevant to the claims). -/
def initState : AppState :=
  { drawings := []
    current_line := []
    recording_rtmp := false
    recording_file := false
    rtmp_url := "rtmp://example.com/live/streamkey"
    output_file_path := "output.webm"
    text_input_mode := false
    text_input := ""
    font_size := 40
    gst_pipeline := none
    text_orientation := TextOrientation.Horizontal
    eraser_mode := false
    placed_texts := []
    selected_font := none }

/-- `let erase_radius = 20.0;` in `BlackboardApp::erase_near`. -/
def eraseRadius : ℚ := 20

/-- Squared Euclidean distance `dx*dx + dy*dy` between two points, exactly
the quantity the source takes the square root of in `erase_near`. -/
def dist2 (a b : Pos2) : ℚ :=
  (a.x - b.x) * (a.x - b.x) + (a.y - b.y) * (a.y - b.y)

/-- The per-stroke test of `erase_near`: the source computes
`line.iter().any(|pt| (dx*dx + dy*dy).sqrt() < erase_radius)`.  Since
`erase_radius = 20` is positive and squaring is monotone on nonnegatives,
`sqrt(d2) < 20` is equivalent to `d2 < 20 * 20`; the embedding uses the
squared comparison to stay inside ℚ, and the bridge to the literal
square-root form is proved in `sqrt_cast_lt_radius_iff` below. -/
def strokeHit (p : Pos2) (line : List Pos2) : Bool :=
  line.any (fun pt => decide (dist2 pt p < eraseRadius * eraseRadius))

/-- `BlackboardApp::erase_near`: retain the strokes with no point within
`erase_radius` of the pointer (`!line.iter().any(.. < erase_radius)`), then
retain the placed texts whose anchor is at distance `>= erase_radius`
(squared form of `sqrt(d2) >= erase_radius`, see `strokeHit`). -/
def erase_near (s : AppState) (p : Pos2) : AppState :=
  { s with
    drawings := s.drawings.filter (fun line => !strokeHit p line)
    placed_texts := s.placed_texts.filter
      (fun t => decide (eraseRadius * eraseRadius ≤ dist2 t.pos p)) }

/-- The vertical display form built in the render loop: iterate over the
characters with their index, pushing a newline before every character whose
index is positive (`if i > 0 { vtext.push('\n'); } vtext.push(ch);`). -/
def verticalText (text : String) : String :=
  text.data.enum.foldl
    (fun acc ic => if ic.1 > 0 then (acc.push '\n').push ic.2 else acc.push ic.2)
    ""

/-- The displayed text of a placed text: the stored text for `Horizontal`,
the newline-interleaved form for `Vertical` (render loop of
`ui_central_panel`). -/
def displayedText (text : String) (o : TextOrientation) : String :=
  match o with
  | TextOrientation.Horizontal => text
  | TextOrientation.Vertical => verticalText text

/-- The first `response.clicked()` block of `ui_central_panel`: place the
configured text at the pointer when `text_input_mode` is on, the text is
non-empty and a font is selected. -/
def handle_click_place (p : Pos2) (s : AppState) : AppState :=
  if s.text_input_mode then
    match s.selected_font with
    | some f =>
        if s.text_input = "" then s
        else
          { s with placed_texts := s.placed_texts ++
              [{ pos := p, text := s.text_input, size := s.font_size
                 orientation := s.text_orientation, font := f }] }
    | none => s
  else s

/-- The second `response.clicked()` block of `ui_central_panel`: erase near
the pointer when `eraser_mode` is on. -/
def handle_click_erase (p : Pos2) (s : AppState) : AppState :=
  if s.eraser_mode then erase_near s p else s

/-- A click on the canvas runs the two clicked-blocks in source order:
text placement, then erasing. -/
def handle_click (p : Pos2) (s : AppState) : AppState :=
  handle_click_erase p (handle_click_place p s)

/-- The `response.drag_started()` block: when neither eraser nor text mode
is active, clear `current_line` and push the pointer position. -/
def handle_drag_started (p : Pos2) (s : AppState) : AppState :=
  if !s.eraser_mode && !s.text_input_mode then
    { s with current_line := [p] }
  else s

/-- The `response.dragged()` block: erase near the pointer in eraser mode,
otherwise (when not in text mode) append the pointer to `current_line`. -/
def handle_dragged (p : Pos2) (s : AppState) : AppState :=
  if s.eraser_mode then erase_near s p
  else if !s.text_input_mode then
    { s with current_line := s.current_line ++ [p] }
  else s

/-- The `response.drag_released()` block: when neither eraser nor text mode
is active and `current_line` is non-empty, push it onto `drawings` and clear
it. -/
def handle_drag_released (s : AppState) : AppState :=
  if !s.eraser_mode && !s.text_input_mode then
    if s.current_line.isEmpty then s
    else
      { s with drawings := s.drawings ++ [s.current_line], current_line := [] }
  else s

/-- The toolbar text-mode button: flip `text_input_mode`; when it turned on,
force `eraser_mode` off. -/
def click_text_mode_button (s : AppState) : AppState :=
  let s1 := { s with text_input_mode := !s.text_input_mode }
  if s1.text_input_mode then { s1 with eraser_mode := false } else s1

/-- The toolbar eraser button: flip `eraser_mode`; when it turned on, force
`text_input_mode` off. -/
def click_eraser_button (s : AppState) : AppState :=
  let s1 := { s with eraser_mode := !s.eraser_mode }
  if s1.eraser_mode then { s1 with text_input_mode := false } else s1

/-- The UI events the claims quantify over: the two mode toggles and the
central-panel pointer events. -/
inductive UiEvent where
  | toggleText
  | toggleEraser
  | clickCanvas (p : Pos2)
  | dragStarted (p : Pos2)
  | dragged (p : Pos2)
  | dragReleased
deriving DecidableEq, Repr

/-- Dispatch one UI event to its handler. -/
def stepEvent (e : UiEvent) (s : AppState) : AppState :=
  match e with
  | UiEvent.toggleText => click_text_mode_button s
  | UiEvent.toggleEraser => click_eraser_button s
  | UiEvent.clickCanvas p => handle_click p s
  | UiEvent.dragStarted p => handle_drag_started p s
  | UiEvent.dragged p => handle_dragged p s
  | UiEvent.dragReleased => handle_drag_released s

/-- Run a sequence of UI events. -/
def runEvents (s : AppState) (evs : List UiEvent) : AppState :=
  evs.foldl (fun st e => stepEvent e st) s

/-- Eraser mode and text-input mode are not both active. -/
def modeExclusive (s : AppState) : Prop :=
  s.eraser_mode = false ∨ s.text_input_mode = false

/-- The RTMP pipeline description built by `start_recording_rtmp`. -/
def rtmpPipelineDescription (url : String) : String :=
  "videotestsrc ! videoconvert ! vp8enc ! queue ! mux. " ++
  "pulsesrc ! audioconvert ! audioresample ! opusenc ! queue ! mux. " ++
  "webmmux streamable=true name=mux ! rtmpsink location=" ++ url

/-- The file pipeline description built by `start_recording_file`. -/
def filePipelineDescription (path : String) : String :=
  "videotestsrc ! videoconvert ! vp8enc ! queue ! mux. " ++
  "pulsesrc ! audioconvert ! audioresample ! opusenc ! queue ! mux. " ++
  "webmmux streamable=true name=mux ! filesink location=" ++ path ++ " sync=false"

def initErrorMsg : String := "gstreamer initialization failed"

def parseErrorMsg : String := "failed to parse pipeline description"

def stateErrorMsg : String := "failed to change pipeline state"

/-- `gst::parse_launch` (composed with the `dynamic_cast` to `Pipeline`):
when the oracle accepts the description, a fresh pipeline is appended to the
store in the `Null` state and its index is returned; otherwise the call
fails and the world is unchanged. -/
def gstParseLaunch (w : GstWorld) (desc : String) : Option (GstWorld × Nat) :=
  if w.parseOk desc then
    some ({ w with pipelines := w.pipelines ++ [GstState.Null] }, w.pipelines.length)
  else none

/-- `Pipeline::set_state`: when the oracle accepts, the stored state of the
pipeline changes to the target state; otherwise the call fails and the world
is unchanged. -/
def gstSetState (w : GstWorld) (id : Nat) (st : GstState) : Option GstWorld :=
  if w.setStateOk id st then
    some { w with pipelines := w.pipelines.set id st }
  else none

/-- `BlackboardApp::start_recording_rtmp`: `gst::init()?`, build the
description from `rtmp_url`, `gst::parse_launch(..)?`, cast,
`set_state(Playing)?`, and only then store the handle in `gst_pipeline`.
Each `?` returns the error with `self` unmodified. -/
def start_recording_rtmp (w : GstWorld) (s : AppState) :
    GstWorld × AppState × Except String Unit :=
  if w.initOk then
    match gstParseLaunch w (rtmpPipelineDescription s.rtmp_url) with
    | none => (w, s, Except.error parseErrorMsg)
    | some pr =>
      match gstSetState pr.1 pr.2 GstState.Playing with
      | none => (pr.1, s, Except.error stateErrorMsg)
      | some w2 => (w2, { s with gst_pipeline := some pr.2 }, Except.ok ())
  else (w, s, Except.error initErrorMsg)

/-- `BlackboardApp::start_recording_file`: same shape as the RTMP variant
with the file-sink description built from `output_file_path`. -/
def start_recording_file (w : GstWorld) (s : AppState) :
    GstWorld × AppState × Except String Unit :=
  if w.initOk then
    match gstParseLaunch w (filePipelineDescription s.output_file_path) with
    | none => (w, s, Except.error parseErrorMsg)
    | some pr =>
      match gstSetState pr.1 pr.2 GstState.Playing with
      | none => (pr.1, s, Except.error stateErrorMsg)
      | some w2 => (w2, { s with gst_pipeline := some pr.2 }, Except.ok ())
  else (w, s, Except.error initErrorMsg)

/-- `BlackboardApp::stop_recording`: when a handle is held, call
`set_state(Null)?` on it — on failure the `?` returns the error before the
handle is cleared — and on success drop the handle.  With no handle held it
is a successful no-op. -/
def stop_recording (w : GstWorld) (s : AppState) :
    GstWorld × AppState × Except String Unit :=
  match s.gst_pipeline with
  | none => (w, s, Except.ok ())
  | some id =>
    match gstSetState w id GstState.Null with
    | none => (w, s, Except.error stateErrorMsg)
    | some w2 => (w2, { s with gst_pipeline := none }, Except.ok ())

/-- The toolbar RTMP button handler (`ui_toolbar`): when recording, stop and
set the flag to `false`; otherwise start and set the flag to `true`.  In
both arms an error result is only logged — the flag is assigned
unconditionally after the call. -/
def click_rtmp_button (w : GstWorld) (s : AppState) : GstWorld × AppState :=
  if s.recording_rtmp then
    let r := stop_recording w s
    (r.1, { r.2.1 with recording_rtmp := false })
  else
    let r := start_recording_rtmp w s
    (r.1, { r.2.1 with recording_rtmp := true })

/-- The toolbar file button handler (`ui_toolbar`), same shape as the RTMP
one over `recording_file` / `start_recording_file`. -/
def click_file_button (w : GstWorld) (s : AppState) : GstWorld × AppState :=
  if s.recording_file then
    let r := stop_recording w s
    (r.1, { r.2.1 with recording_file := false })
  else
    let r := start_recording_file w s
    (r.1, { r.2.1 with recording_file := true })

/-- Concrete erase point used in witnesses: the origin. -/
def pEx : Pos2 := { x := 0, y := 0 }

/-- A stroke with a point within radius 20 of the origin. -/
def strokeNear : List Pos2 := [{ x := 10, y := 0 }]

/-- A stroke with all points at distance at least 20 from the origin. -/
def strokeFar : List Pos2 := [{ x := 100, y := 100 }]

/-- Canvas holding one near and one far stroke. -/
def strokeState : AppState :=
  { initState with drawings := [strokeNear, strokeFar] }

/-- A placed text whose anchor is at distance exactly 20 from the origin. -/
def boundaryText : PlacedText :=
  { pos := { x := 20, y := 0 }, text := "A", size := 40
    orientation := TextOrientation.Horizontal, font := "Sans" }

/-- Canvas holding the boundary-anchored text. -/
def textState : AppState :=
  { initState with placed_texts := [boundaryText] }

/-- A state ready to place text: text mode on, non-empty text, resolved font. -/
def textReadyState : AppState :=
  { initState with text_input_mode := true, text_input := "Hi"
                   selected_font := some "Sans" }

/-- External world in which every GStreamer call succeeds. -/
def allOkWorld : GstWorld :=
  { pipelines := [], initOk := true
    parseOk := fun _ => true, setStateOk := fun _ _ => true }

/-- External world in which `parse_launch` always fails. -/
def parseFailWorld : GstWorld :=
  { pipelines := [], initOk := true
    parseOk := fun _ => false, setStateOk := fun _ _ => true }

/-- External world holding one `Playing` pipeline on which every transition
to `Null` fails. -/
def stopFailWorld : GstWorld :=
  { pipelines := [GstState.Playing], initOk := true
    parseOk := fun _ => true
    setStateOk := fun _ st => match st with | GstState.Null => false | _ => true }

/-- External world holding one `Playing` pipeline with all calls succeeding. -/
def playingWorld : GstWorld :=
  { pipelines := [GstState.Playing], initOk := true
    parseOk := fun _ => true, setStateOk := fun _ _ => true }

/-- App state owning pipeline 0. -/
def owningState : AppState := { initState with gst_pipeline := some 0 }

/-- The world and app state after a successful file start followed by an
immediate RTMP start, with no stop in between (the double-start scenario). -/
def doubleStartRun : GstWorld × AppState :=
  let r1 := start_recording_file allOkWorld initState
  let r2 := start_recording_rtmp r1.1 r1.2.1
  (r2.1, r2.2.1)

def pA : Pos2 := { x := 0, y := 0 }

def pB : Pos2 := { x := 1, y := 0 }

def pC : Pos2 := { x := 100, y := 100 }

/-- A drag begun in drawing mode, switched to eraser mode mid-drag and
released (leaving the buffer `[pA, pB]` orphaned), followed by a second drag
begun while the eraser is still on, switched back to drawing mode mid-drag,
extended and released. -/
def orphanTrace : List UiEvent :=
  [UiEvent.dragStarted pA, UiEvent.dragged pB, UiEvent.toggleEraser,
   UiEvent.dragReleased,
   UiEvent.dragStarted pC, UiEvent.toggleEraser, UiEvent.dragged pC,
   UiEvent.dragReleased]

/-- The first four events of `orphanTrace`: up to and including the release
that happens while eraser mode is on. -/
def orphanTraceReleasePoint : List UiEvent := List.take 4 orphanTrace

/-- A state in eraser mode carrying a non-empty in-progress buffer. -/
def eraserOnState : AppState :=
  { initState with eraser_mode := true, current_line := [pA] }

/-- Membership in the stroke list after `erase_near`: a stroke is retained
precisely when it was present and every one of its points is at squared
distance at least `eraseRadius²` from the pointer. -/
theorem mem_erase_near_drawings (s : AppState) (p : Pos2) (line : List Pos2) :
    line ∈ (erase_near s p).drawings ↔
      line ∈ s.drawings ∧ ∀ pt ∈ line, eraseRadius * eraseRadius ≤ dist2 pt p := by
  simp [erase_near, List.mem_filter, strokeHit, not_lt]

/-- Membership in the placed-text list after `erase_near`: a text is
retained precisely when it was present and its anchor is at squared distance
at least `eraseRadius²` from the pointer. -/
theorem mem_erase_near_texts (s : AppState) (p : Pos2) (t : PlacedText) :
    t ∈ (erase_near s p).placed_texts ↔
      t ∈ s.placed_texts ∧ eraseRadius * eraseRadius ≤ dist2 t.pos p := by
  simp [erase_near, List.mem_filter]

/-- Bridge between the square-root comparison the source performs and the
squared comparison of the embedding: for the positive radius 20,
`sqrt(dist2) < 20` iff `dist2 < 400`. -/
theorem sqrt_cast_lt_radius_iff (a b : Pos2) :
    Real.sqrt ((dist2 a b : ℚ) : ℝ) < ((eraseRadius : ℚ) : ℝ) ↔
      dist2 a b < eraseRadius * eraseRadius := by
  rw [Real.sqrt_lt' (by norm_num [eraseRadius] : (0:ℝ) < ((eraseRadius : ℚ) : ℝ))]
  rw [show (((eraseRadius : ℚ) : ℝ)) ^ 2 = ((eraseRadius * eraseRadius : ℚ) : ℝ) by
        push_cast ; ring]
  exact Rat.cast_lt

/-- Complement of `sqrt_cast_lt_radius_iff`: `20 ≤ sqrt(dist2)` iff
`400 ≤ dist2`. -/
theorem radius_le_sqrt_cast_iff (a b : Pos2) :
    ((eraseRadius : ℚ) : ℝ) ≤ Real.sqrt ((dist2 a b : ℚ) : ℝ) ↔
      eraseRadius * eraseRadius ≤ dist2 a b := by
  rw [← not_lt, sqrt_cast_lt_radius_iff, not_lt]

/-- C1: `erase_near(p, r)` removes exactly the committed strokes having some
point at Euclidean distance `< r` from `p` (with `r` the source's
`erase_radius`): the surviving stroke list is a sublist of the original,
every retained stroke comes from the original with all of its points at
distance `≥ r` from `p`, and every original stroke whose points are all at
distance `≥ r` is retained (so every removed stroke had a point at distance
`< r`). -/
theorem erase_near_strokes_exact (s : AppState) (p : Pos2) :
    List.Sublist (erase_near s p).drawings s.drawings ∧
    (∀ line ∈ (erase_near s p).drawings,
        line ∈ s.drawings ∧
        ∀ pt ∈ line,
          ((eraseRadius : ℚ) : ℝ) ≤ Real.sqrt ((dist2 pt p : ℚ) : ℝ)) ∧
    (∀ line ∈ s.drawings,
        (∀ pt ∈ line,
          ((eraseRadius : ℚ) : ℝ) ≤ Real.sqrt ((dist2 pt p : ℚ) : ℝ)) →
        line ∈ (erase_near s p).drawings) := by
  refine ⟨List.filter_sublist _, ?_, ?_⟩
  · intro line hmem
    rw [mem_erase_near_drawings] at hmem
    exact ⟨hmem.1, fun pt hpt => (radius_le_sqrt_cast_iff pt p).2 (hmem.2 pt hpt)⟩
  · intro line hmem hfar
    rw [mem_erase_near_drawings]
    exact ⟨hmem, fun pt hpt => (radius_le_sqrt_cast_iff pt p).1 (hfar pt hpt)⟩

/-- Witness for C1 on a concrete canvas: the stroke whose only point is
`(100, 100)` survives `erase_near` at the origin. -/
theorem erase_near_strokes_exact_witness :
    strokeFar ∈ (erase_near strokeState pEx).drawings := by
  refine (erase_near_strokes_exact strokeState pEx).2.2 strokeFar (by decide) ?_
  intro pt hpt
  have hpt2 : pt = ({ x := 100, y := 100 } : Pos2) := by
    simpa [strokeFar] using hpt
  subst hpt2
  rw [radius_le_sqrt_cast_iff]
  norm_num [dist2, pEx, eraseRadius]

/-- C2: `erase_near(p, r)` retains exactly the placed texts whose anchor is
at Euclidean distance `≥ r` from `p` (with `r` the source's
`erase_radius`): the surviving text list is a sublist of the original, every
retained text comes from the original with its anchor at distance `≥ r`,
and every original text anchored at distance `≥ r` (the boundary included)
is retained. -/
theorem erase_near_texts_exact (s : AppState) (p : Pos2) :
    List.Sublist (erase_near s p).placed_texts s.placed_texts ∧
    (∀ t ∈ (erase_near s p).placed_texts,
        t ∈ s.placed_texts ∧
        ((eraseRadius : ℚ) : ℝ) ≤ Real.sqrt ((dist2 t.pos p : ℚ) : ℝ)) ∧
    (∀ t ∈ s.placed_texts,
        ((eraseRadius : ℚ) : ℝ) ≤ Real.sqrt ((dist2 t.pos p : ℚ) : ℝ) →
        t ∈ (erase_near s p).placed_texts) := by
  refine ⟨List.filter_sublist _, ?_, ?_⟩
  · intro t hmem
    rw [mem_erase_near_texts] at hmem
    exact ⟨hmem.1, (radius_le_sqrt_cast_iff t.pos p).2 hmem.2⟩
  · intro t hmem hfar
    rw [mem_erase_near_texts]
    exact ⟨hmem, (radius_le_sqrt_cast_iff t.pos p).1 hfar⟩

/-- Witness for C2 at the boundary: a text anchored at `(20, 0)` — distance
exactly 20 from the origin — is retained by `erase_near` at the origin. -/
theorem erase_near_texts_exact_witness :
    boundaryText ∈ (erase_near textState pEx).placed_texts := by
  refine (erase_near_texts_exact textState pEx).2.2 boundaryText (by decide) ?_
  rw [radius_le_sqrt_cast_iff]
  norm_num [dist2, boundaryText, pEx, eraseRadius]

/-- C6: releasing a drag whose in-progress buffer is empty commits nothing —
the state is unchanged — and a release never appends an empty stroke to the
canvas. -/
theorem drag_release_empty_noop (s : AppState) :
    (s.current_line = [] → handle_drag_released s = s) ∧
    ([] ∉ s.drawings → [] ∉ (handle_drag_released s).drawings) := by
  constructor
  · intro h
    unfold handle_drag_released
    rw [h]
    simp
  · intro h
    unfold handle_drag_released
    cases hb : (!s.eraser_mode && !s.text_input_mode) with
    | false => simpa [hb] using h
    | true =>
      cases hc : s.current_line.isEmpty with
      | true => simpa [hb, hc] using h
      | false =>
        simp only [hb, hc, if_true, Bool.false_eq_true, if_false]
        intro hmem
        simp only [List.mem_append, List.mem_singleton] at hmem
        rcases hmem with h1 | h1
        · exact h h1
        · rw [← h1] at hc
          simp at hc

/-- Witness for C6: releasing with the empty initial buffer leaves the
initial state untouched. -/
theorem drag_release_empty_noop_witness :
    handle_drag_released initState = initState :=
  (drag_release_empty_noop initState).1 rfl

/-- The eraser toggle leaves the mode flags mutually exclusive. -/
theorem click_eraser_button_exclusive (s : AppState) :
    modeExclusive (click_eraser_button s) := by
  unfold modeExclusive click_eraser_button
  cases hs : s.eraser_mode with
  | false => right ; simp [hs]
  | true => left ; simp [hs]

/-- The text-mode toggle leaves the mode flags mutually exclusive. -/
theorem click_text_mode_button_exclusive (s : AppState) :
    modeExclusive (click_text_mode_button s) := by
  unfold modeExclusive click_text_mode_button
  cases hs : s.text_input_mode with
  | false => left ; simp [hs]
  | true => right ; simp [hs]

/-- `erase_near` does not touch the mode flags. -/
theorem erase_near_modes (s : AppState) (p : Pos2) :
    (erase_near s p).eraser_mode = s.eraser_mode ∧
    (erase_near s p).text_input_mode = s.text_input_mode :=
  ⟨rfl, rfl⟩

/-- A canvas click does not touch the mode flags. -/
theorem handle_click_modes (p : Pos2) (s : AppState) :
    (handle_click p s).eraser_mode = s.eraser_mode ∧
    (handle_click p s).text_input_mode = s.text_input_mode := by
  unfold handle_click handle_click_erase handle_click_place erase_near
  repeat' split
  all_goals exact ⟨rfl, rfl⟩

/-- The drag handlers do not touch the mode flags. -/
theorem handle_drag_modes (p : Pos2) (s : AppState) :
    (handle_drag_started p s).eraser_mode = s.eraser_mode ∧
    (handle_drag_started p s).text_input_mode = s.text_input_mode ∧
    (handle_dragged p s).eraser_mode = s.eraser_mode ∧
    (handle_dragged p s).text_input_mode = s.text_input_mode ∧
    (handle_drag_released s).eraser_mode = s.eraser_mode ∧
    (handle_drag_released s).text_input_mode = s.text_input_mode := by
  unfold handle_drag_started handle_dragged handle_drag_released erase_near
  repeat' split
  all_goals simp

/-- One UI event preserves mutual exclusion of the mode flags. -/
theorem stepEvent_modeExclusive (e : UiEvent) (s : AppState)
    (h : modeExclusive s) : modeExclusive (stepEvent e s) := by
  cases e with
  | toggleText => exact click_text_mode_button_exclusive s
  | toggleEraser => exact click_eraser_button_exclusive s
  | clickCanvas p =>
      have hm := handle_click_modes p s
      unfold modeExclusive at h ⊢
      rw [show stepEvent (UiEvent.clickCanvas p) s = handle_click p s from rfl,
          hm.1, hm.2]
      exact h
  | dragStarted p =>
      have hm := handle_drag_modes p s
      unfold modeExclusive at h ⊢
      rw [show stepEvent (UiEvent.dragStarted p) s = handle_drag_started p s from rfl,
          hm.1, hm.2.1]
      exact h
  | dragged p =>
      have hm := handle_drag_modes p s
      unfold modeExclusive at h ⊢
      rw [show stepEvent (UiEvent.dragged p) s = handle_dragged p s from rfl,
          hm.2.2.1, hm.2.2.2.1]
      exact h
  | dragReleased =>
      have hm := handle_drag_modes pEx s
      unfold modeExclusive at h ⊢
      rw [show stepEvent UiEvent.dragReleased s = handle_drag_released s from rfl,
          hm.2.2.2.2.1, hm.2.2.2.2.2]
      exact h

/-- C7: toggling the eraser on forces text mode off, toggling text mode on
forces the eraser off, and starting from a state where the two modes are not
both active, every sequence of UI events (toggles included) keeps them from
ever being both active. -/
theorem mode_mutual_exclusion :
    (∀ s : AppState, (click_eraser_button s).eraser_mode = true →
        (click_eraser_button s).text_input_mode = false) ∧
    (∀ s : AppState, (click_text_mode_button s).text_input_mode = true →
        (click_text_mode_button s).eraser_mode = false) ∧
    (∀ (s : AppState) (evs : List UiEvent),
        modeExclusive s → modeExclusive (runEvents s evs)) := by
  refine ⟨?_, ?_, ?_⟩
  · intro s h
    cases hs : s.eraser_mode with
    | false => simp [click_eraser_button, hs]
    | true => simp [click_eraser_button, hs] at h
  · intro s h
    cases hs : s.text_input_mode with
    | false => simp [click_text_mode_button, hs]
    | true => simp [click_text_mode_button, hs] at h
  · intro s evs h
    induction evs generalizing s with
    | nil => exact h
    | cons e rest ih => exact ih _ (stepEvent_modeExclusive e s h)

/-- Witness for C7: a toggle sequence from the initial state ends with the
modes still mutually exclusive. -/
theorem mode_mutual_exclusion_witness :
    modeExclusive (runEvents initState
      [UiEvent.toggleText, UiEvent.toggleEraser, UiEvent.toggleEraser]) :=
  mode_mutual_exclusion.2.2 initState
    [UiEvent.toggleText, UiEvent.toggleEraser, UiEvent.toggleEraser]
    (Or.inl rfl)

/-- C8: a click in text-input mode (eraser off) appends a placed text
exactly when the configured text is non-empty and a font is selected, using
the configured text, size, orientation and font at the click position; with
empty text or no selected font the annotation list is unchanged — a silent
no-op, not an error. -/
theorem click_place_text (s : AppState) (p : Pos2)
    (ht : s.text_input_mode = true) (he : s.eraser_mode = false) :
    (∀ f, s.selected_font = some f → s.text_input ≠ "" →
        (handle_click p s).placed_texts = s.placed_texts ++
          [{ pos := p, text := s.text_input, size := s.font_size
             orientation := s.text_orientation, font := f }]) ∧
    ((s.text_input = "" ∨ s.selected_font = none) →
        (handle_click p s).placed_texts = s.placed_texts) := by
  constructor
  · intro f hf hne
    simp [handle_click, handle_click_place, handle_click_erase, ht, he, hf, hne]
  · intro hcase
    rcases hcase with hc | hc
    · cases hfont : s.selected_font with
      | none => simp [handle_click, handle_click_place, handle_click_erase,
                      ht, he, hfont]
      | some f => simp [handle_click, handle_click_place, handle_click_erase,
                        ht, he, hc, hfont]
    · simp [handle_click, handle_click_place, handle_click_erase, ht, he, hc]

/-- Witness for C8: a concrete click with text `"Hi"` and font `"Sans"`
appends exactly that annotation. -/
theorem click_place_text_witness :
    (handle_click pEx textReadyState).placed_texts =
      textReadyState.placed_texts ++
        [{ pos := pEx, text := textReadyState.text_input
           size := textReadyState.font_size
           orientation := textReadyState.text_orientation, font := "Sans" }] :=
  (click_place_text textReadyState pEx rfl rfl).1 "Sans" rfl (by decide)

/-- Unfolding of the vertical-text fold over the enumerated tail: once every
index is positive, each character contributes a newline and itself. -/
theorem verticalText_foldl_aux (cs : List Char) (n : Nat) (acc : String)
    (hn : 0 < n) :
    (List.enumFrom n cs).foldl
        (fun a ic => if ic.1 > 0 then (a.push '\n').push ic.2 else a.push ic.2)
        acc =
      String.mk (acc.data ++ cs.foldr (fun c r => '\n' :: c :: r) []) := by
  induction cs generalizing n acc with
  | nil => simp
  | cons c cs ih =>
      simp only [List.enumFrom, List.foldl]
      rw [if_pos hn]
      rw [ih (n + 1) ((acc.push '\n').push c) (Nat.succ_pos n)]
      simp [String.push, List.append_assoc]

/-- The newline-before-each-tail-character form equals `intersperse`. -/
theorem intersperse_newline_eq (c : Char) (cs : List Char) :
    List.intersperse '\n' (c :: cs) =
      c :: cs.foldr (fun d r => '\n' :: d :: r) [] := by
  induction cs generalizing c with
  | nil => rfl
  | cons d ds ih => rw [List.intersperse_cons_cons, ih d] ; rfl

/-- The characters of the vertical display form are the stored characters
interspersed with single newlines. -/
theorem verticalText_data (t : String) :
    (verticalText t).data = List.intersperse '\n' t.data := by
  unfold verticalText
  cases ht : t.data with
  | nil => rfl
  | cons c cs =>
      rw [show List.enum (c :: cs) = (0, c) :: List.enumFrom 1 cs from rfl]
      simp only [List.foldl]
      rw [if_neg (by decide : ¬ (0 > 0))]
      rw [verticalText_foldl_aux cs 1 ("".push c) Nat.one_pos]
      rw [intersperse_newline_eq]
      rfl

/-- C9: the displayed text of a placed text is the stored text itself for
horizontal orientation, and for vertical orientation the stored characters
with a single newline inserted between each consecutive pair (no leading or
trailing newline); in particular vertical `"AB"` displays as `"A\nB"`. -/
theorem displayed_text_correct :
    (∀ t : String, displayedText t TextOrientation.Horizontal = t) ∧
    (∀ t : String,
        (displayedText t TextOrientation.Vertical).data =
          List.intersperse '\n' t.data) ∧
    displayedText (String.mk ['A', 'B']) TextOrientation.Vertical =
      String.mk ['A', '\n', 'B'] := by
  refine ⟨fun t => rfl, fun t => verticalText_data t, rfl⟩

/-- Witness for C9: horizontal `"AB"` displays unchanged. -/
theorem displayed_text_correct_witness :
    displayedText (String.mk ['A', 'B']) TextOrientation.Horizontal =
      String.mk ['A', 'B'] :=
  displayed_text_correct.1 (String.mk ['A', 'B'])

/-- A failed RTMP start leaves the app state exactly as it was. -/
theorem start_rtmp_error_app (w : GstWorld) (s : AppState) (e : String)
    (h : (start_recording_rtmp w s).2.2 = Except.error e) :
    (start_recording_rtmp w s).2.1 = s := by
  unfold start_recording_rtmp at h ⊢
  cases hinit : w.initOk with
  | false => simp [hinit]
  | true =>
    simp only [hinit, if_true] at h ⊢
    cases hp : gstParseLaunch w (rtmpPipelineDescription s.rtmp_url) with
    | none => simp [hp]
    | some pr =>
      simp only [hp] at h ⊢
      cases hs : gstSetState pr.1 pr.2 GstState.Playing with
      | none => simp [hs]
      | some w2 =>
        simp only [hs] at h
        exact absurd h (by simp)

/-- A failed file start leaves the app state exactly as it was. -/
theorem start_file_error_app (w : GstWorld) (s : AppState) (e : String)
    (h : (start_recording_file w s).2.2 = Except.error e) :
    (start_recording_file w s).2.1 = s := by
  unfold start_recording_file at h ⊢
  cases hinit : w.initOk with
  | false => simp [hinit]
  | true =>
    simp only [hinit, if_true] at h ⊢
    cases hp : gstParseLaunch w (filePipelineDescription s.output_file_path) with
    | none => simp [hp]
    | some pr =>
      simp only [hp] at h ⊢
      cases hs : gstSetState pr.1 pr.2 GstState.Playing with
      | none => simp [hs]
      | some w2 =>
        simp only [hs] at h
        exact absurd h (by simp)

/-- C3 counterexample: with `parse_launch` failing, `start_recording_rtmp`
returns an error and retains no pipeline handle, yet the toolbar click
handler sets the recording toggle to on — the toggle does not stay in its
prior off state. -/
theorem start_failure_toggle_desync :
    (start_recording_rtmp parseFailWorld initState).2.2 =
        Except.error parseErrorMsg ∧
    (click_rtmp_button parseFailWorld initState).2.recording_rtmp = true ∧
    (click_rtmp_button parseFailWorld initState).2.gst_pipeline = none :=
  ⟨rfl, rfl, rfl⟩

/-- C3 amended: every failing start (initialization, parse/construction or
state-transition error) returns an error value with the controller state
unchanged — in particular no pipeline handle is retained when none was held
— but the toolbar click handler sets the UI recording toggle to on
regardless of the returned error, so the toggle does not remain in its
prior off state. -/
theorem start_failure_keeps_controller_state (w : GstWorld) (s : AppState)
    (e1 e2 : String)
    (hr : s.recording_rtmp = false) (hf : s.recording_file = false)
    (h1 : (start_recording_rtmp w s).2.2 = Except.error e1)
    (h2 : (start_recording_file w s).2.2 = Except.error e2) :
    (start_recording_rtmp w s).2.1 = s ∧
    (start_recording_file w s).2.1 = s ∧
    (click_rtmp_button w s).2.recording_rtmp = true ∧
    (click_rtmp_button w s).2.gst_pipeline = s.gst_pipeline ∧
    (click_file_button w s).2.recording_file = true ∧
    (click_file_button w s).2.gst_pipeline = s.gst_pipeline := by
  have hA := start_rtmp_error_app w s e1 h1
  have hB := start_file_error_app w s e2 h2
  refine ⟨hA, hB, ?_, ?_, ?_, ?_⟩
  · simp [click_rtmp_button, hr]
  · simp [click_rtmp_button, hr, hA]
  · simp [click_file_button, hf]
  · simp [click_file_button, hf, hB]

/-- Witness for the amended C3 at a concrete failing world: the app state is
untouched by the failed start. -/
theorem start_failure_keeps_controller_state_witness :
    (start_recording_rtmp parseFailWorld initState).2.1 = initState :=
  (start_failure_keeps_controller_state parseFailWorld initState
    parseErrorMsg parseErrorMsg rfl rfl rfl rfl).1

/-- C4 counterexample: after a successful file start immediately followed by
an RTMP start with no stop in between, the first pipeline is still `Playing`
in the external store while no longer owned — the prior instance was
silently discarded without being torn down. -/
theorem double_start_discards_running_pipeline :
    doubleStartRun.1.pipelines = [GstState.Playing, GstState.Playing] ∧
    doubleStartRun.2.gst_pipeline = some 1 :=
  ⟨rfl, rfl⟩

/-- C4 amended: the pipeline owned at `stop` time is torn down — set to
`Null` — before the handle is dropped (when the transition succeeds), but a
`start` call never changes the state of any previously created pipeline: on
a double start the prior pipeline keeps its state (in particular `Playing`)
while its handle is overwritten, so it is silently discarded rather than
destroyed. -/
theorem stop_destroys_owned_pipeline (w : GstWorld) (s : AppState) (id : Nat)
    (hown : s.gst_pipeline = some id)
    (hok : w.setStateOk id GstState.Null = true)
    (hlen : id < w.pipelines.length) :
    ((stop_recording w s).1.pipelines[id]? = some GstState.Null ∧
     (stop_recording w s).2.1.gst_pipeline = none ∧
     (stop_recording w s).2.2 = Except.ok ()) ∧
    (∀ j, j < w.pipelines.length →
        (start_recording_rtmp w s).1.pipelines[j]? = w.pipelines[j]?) := by
  constructor
  · unfold stop_recording
    rw [hown]
    simp [gstSetState, hok, List.getElem?_set_self hlen]
  · intro j hj
    unfold start_recording_rtmp
    cases hinit : w.initOk with
    | false => simp
    | true =>
      simp only [if_true]
      unfold gstParseLaunch
      cases hp : w.parseOk (rtmpPipelineDescription s.rtmp_url) with
      | false => simp [hp]
      | true =>
        simp only [hp, if_true]
        unfold gstSetState
        cases hs : w.setStateOk w.pipelines.length GstState.Playing with
        | false => simp [hs, List.getElem?_append_left hj]
        | true =>
          simp only [hs, if_true]
          rw [List.getElem?_set_ne (by omega : w.pipelines.length ≠ j)]
          exact List.getElem?_append_left hj

/-- Witness for the amended C4: stopping while owning the concrete `Playing`
pipeline 0 sets it to `Null`. -/
theorem stop_destroys_owned_pipeline_witness :
    (stop_recording playingWorld owningState).1.pipelines[0]? =
      some GstState.Null :=
  ((stop_destroys_owned_pipeline playingWorld owningState 0 rfl rfl
      (by decide)).1).1

/-- C5 counterexample: with pipeline 0 owned and the transition to `Null`
failing, `stop_recording` returns an error and the controller is left still
holding the handle. -/
theorem failed_stop_keeps_handle :
    (stop_recording stopFailWorld owningState).2.1.gst_pipeline = some 0 ∧
    (stop_recording stopFailWorld owningState).2.2 =
      Except.error stateErrorMsg :=
  ⟨rfl, rfl⟩

/-- C5 amended: `stop` with no handle held is a successful no-op; when the
halt transition fails, `stop` returns the error and the controller still
holds the handle (the early return skips the drop); the handle is dropped
exactly when the halt transition succeeds. -/
theorem stop_recording_cases (w : GstWorld) (s : AppState) :
    (s.gst_pipeline = none → stop_recording w s = (w, s, Except.ok ())) ∧
    (∀ id, s.gst_pipeline = some id →
        w.setStateOk id GstState.Null = false →
        (stop_recording w s).2.1 = s ∧
        (stop_recording w s).2.2 = Except.error stateErrorMsg) ∧
    (∀ id, s.gst_pipeline = some id →
        w.setStateOk id GstState.Null = true →
        (stop_recording w s).2.1.gst_pipeline = none ∧
        (stop_recording w s).2.2 = Except.ok ()) := by
  refine ⟨?_, ?_, ?_⟩
  · intro h
    unfold stop_recording
    rw [h]
  · intro id h hfail
    unfold stop_recording
    rw [h]
    simp [gstSetState, hfail]
  · intro id h hok
    unfold stop_recording
    rw [h]
    simp [gstSetState, hok]

/-- Witness for the amended C5: the concrete failed stop leaves the state
untouched, handle included. -/
theorem stop_recording_cases_witness :
    (stop_recording stopFailWorld owningState).2.1 = owningState :=
  ((stop_recording_cases stopFailWorld owningState).2.1 0 rfl rfl).1

/-- C10 counterexample: releasing the first drag while eraser mode is on
commits nothing (the canvas is still empty, the buffer `[pA, pB]` is left
orphaned), yet the orphaned stroke later reaches the canvas: the second drag
starts while the eraser is still on — so the buffer is not cleared — the
mode is switched off mid-drag, and the release commits `[pA, pB, pC]`,
which is the continuation of the stroke begun before the first mid-drag
mode switch. -/
theorem orphan_buffer_reaches_canvas :
    (runEvents initState orphanTraceReleasePoint).drawings = [] ∧
    (runEvents initState orphanTraceReleasePoint).current_line = [pA, pB] ∧
    (runEvents initState orphanTraceReleasePoint).eraser_mode = true ∧
    (runEvents initState orphanTrace).drawings = [[pA, pB, pC]] :=
  ⟨rfl, rfl, rfl, rfl⟩

/-- C10 amended: releasing a drag while eraser mode or text-input mode is
active leaves the entire state unchanged — in particular the canvas stroke
sequence — and a drag started in drawing mode resets the buffer to exactly
the start point, discarding any orphaned content; the orphaned buffer is
however not unconditionally lost: a drag started in eraser or text mode and
switched to drawing mode mid-drag can still commit it. -/
theorem mode_active_release_commits_nothing (s : AppState) (p : Pos2) :
    ((s.eraser_mode = true ∨ s.text_input_mode = true) →
        handle_drag_released s = s) ∧
    (s.eraser_mode = false → s.text_input_mode = false →
        (handle_drag_started p s).current_line = [p]) := by
  constructor
  · intro h
    unfold handle_drag_released
    rcases h with h | h <;> simp [h]
  · intro he ht
    simp [handle_drag_started, he, ht]

/-- Witness for the amended C10: releasing in eraser mode with a non-empty
buffer leaves the concrete state untouched. -/
theorem mode_active_release_commits_nothing_witness :
    handle_drag_released eraserOnState = eraserOnState :=
  (mode_active_release_commits_nothing eraserOnState pA).1 (Or.inl rfl)

end Blackboard
